import Mathlib

/-!
Verification development for the mug-designer application (`src/designer.js`).

The embedding below translates the constraint engine (`checkBounds`,
`snapToCenter`), the history manager (`saveHistory`, the undo-button handler,
`redo`), the layer reordering logic (`reorderLayers` together with the panel's
drag/drop index wiring in `updateLayersPanel`), and the debounce scheduler
(`debounce` wired to `updateMugTexture` at `DEBOUNCE_TIME` = 300 ms) into pure
Lean functions over exact rational coordinates.

Modelling conventions:
* Coordinates, dimensions and scale factors are rationals (`ℚ`); the source
  uses IEEE doubles, whose rounding is irrelevant to the claims checked here.
* Every design object the application creates uses Fabric's center origin
  (`originX/originY = "center"`, see `addTextConfirm`), so an object's
  `left`/`top` fields coincide with its center point.  `getCenterPoint` and
  `setPositionByOrigin(p, "center", "center")` read and write exactly that
  center, so the embedding stores the center in `left`/`top`.
* Objects are modelled unrotated: `checkBounds` and `snapToCenter` never read
  the angle, and `getBoundingRect(true)` of an unrotated object is the
  axis-aligned box of size `width*scaleX × height*scaleY` centered on the
  object's center.  The inert `angle` field is carried so that theorems about
  "geometry unchanged" cover rotation.
* DOM side effects are reified as data: `showModal` returns a record carrying
  the message and its 3000 ms auto-dismiss timeout; the guide lines' visibility
  is returned alongside the object.
-/

namespace MugDesigner

/-- An axis-aligned rectangle in canvas coordinates, as returned by Fabric's
`getBoundingRect` and as configured for the safe/bleed rectangles. -/
structure Rect where
  left : ℚ
  top : ℚ
  width : ℚ
  height : ℚ
deriving DecidableEq

/-- A Fabric scene object as the designer uses it: `left`/`top` hold the
object's center point (all designer-created objects are center-origin),
`width`/`height` are the intrinsic dimensions, `scaleX`/`scaleY` the scale
factors, `angle` the (inert, never touched by the embedded functions)
rotation, and `type` the Fabric type tag (`"i-text"` for text). -/
structure Obj where
  left : ℚ
  top : ℚ
  width : ℚ
  height : ℚ
  scaleX : ℚ
  scaleY : ℚ
  angle : ℚ
  type : String
deriving DecidableEq

/-- `obj.getBoundingRect(true)` for an unrotated center-origin object: the
axis-aligned box of the scaled dimensions centered on the object's center. -/
def boundingRect (o : Obj) : Rect :=
  { left := o.left - o.width * o.scaleX / 2
    top := o.top - o.height * o.scaleY / 2
    width := o.width * o.scaleX
    height := o.height * o.scaleY }

/-- The bleed test of `checkBounds` (designer.js:1592-1597): true when any
edge of the object's bounding box lies outside the bleed rectangle. -/
def exceedsBleed (bleed : Rect) (o : Obj) : Bool :=
  let bounds := boundingRect o
  decide (bounds.left < bleed.left) ||
    decide (bounds.left + bounds.width > bleed.left + bleed.width) ||
    decide (bounds.top < bleed.top) ||
    decide (bounds.top + bounds.height > bleed.top + bleed.height)

/-- The warning modal raised by `showModal` (designer.js:1632-1641): the
message is displayed and a timer hides it again after 3000 ms. -/
structure Modal where
  message : String
  dismissAfterMs : ℕ
deriving DecidableEq

/-- `showModal(message)` (designer.js:1632): shows `message` and schedules the
auto-dismiss 3000 ms later. -/
def showModal (message : String) : Modal :=
  { message := message, dismissAfterMs := 3000 }

/-- Lines 1608-1611 / 1612-1615 of `checkBounds`, one axis: the new scale
factor after the safe-zone fit (`scale = maxDim / dim` when the scaled
dimension overflows, unchanged otherwise). -/
def fittedScale (maxDim dim scale : ℚ) : ℚ :=
  if dim * scale > maxDim then maxDim / dim else scale

/-- The companion update of the local `objWidth`/`objHeight` variable in the
same lines: the scaled dimension after the safe-zone fit. -/
def fittedDim (maxDim dim scale : ℚ) : ℚ :=
  if dim * scale > maxDim then maxDim else dim * scale

/-- Line 1625 / 1627 of `checkBounds`: `if (v < lo) v = lo`. -/
def clampLow (lo x : ℚ) : ℚ := if x < lo then lo else x

/-- Line 1626 / 1628 of `checkBounds`, applied to the result of the previous
line: `if (v > hi) v = hi`. -/
def clampHigh (hi x : ℚ) : ℚ := if x > hi then hi else x

/-- The text-only branch of `checkBounds` (designer.js:1601-1629): scale each
axis down to fit the safe zone, then clamp `left`/`top` (the center, for the
designer's center-origin text objects) into
`[safe.left + halfW, safe.left + safe.width - halfW]` and the equivalent
vertical range, via the two sequential one-sided clamps of lines 1625-1628. -/
def clampTextToSafe (safe : Rect) (o : Obj) : Obj :=
  let scaleX1 := fittedScale safe.width o.width o.scaleX
  let objWidth1 := fittedDim safe.width o.width o.scaleX
  let scaleY1 := fittedScale safe.height o.height o.scaleY
  let objHeight1 := fittedDim safe.height o.height o.scaleY
  let minX := safe.left + objWidth1 / 2
  let maxX := safe.left + safe.width - objWidth1 / 2
  let minY := safe.top + objHeight1 / 2
  let maxY := safe.top + safe.height - objHeight1 / 2
  { o with
    scaleX := scaleX1
    scaleY := scaleY1
    left := clampHigh maxX (clampLow minX o.left)
    top := clampHigh maxY (clampLow minY o.top) }

/-- `checkBounds(obj)` (designer.js:1585-1630): emit the bleed warning when the
(pre-clamp) bounding box exceeds the bleed rectangle, and, for `"i-text"`
objects only, fit the scale to the safe zone and clamp the position; all other
objects are returned untouched.  The function is total (never throws). -/
def checkBounds (safe bleed : Rect) (o : Obj) : Obj × Option Modal :=
  (if o.type = "i-text" then clampTextToSafe safe o else o,
   if exceedsBleed bleed o then
     some (showModal "⚠ Element is outside the safe printing area!")
   else none)

/-- `snapToCenter(obj, snapPx = 10)` (designer.js:1562-1583) on a `W × H`
canvas.  The source captures `center = obj.getCenterPoint()` once; the X test
snaps the center to `(W/2, center.y)` and shows the vertical guide, the Y test
snaps the center to `(center.x, H/2)` — with the *stale* captured `center.x` —
and shows the horizontal guide; a failed test hides that axis's guide.
Returns the object together with the (vGuide, hGuide) visibility. -/
def snapToCenter (W H snapPx : ℚ) (o : Obj) : Obj × Bool × Bool :=
  let cx := o.left
  let cy := o.top
  if |cx - W / 2| < snapPx then
    let o1 := { o with left := W / 2, top := cy }
    if |cy - H / 2| < snapPx then
      ({ o1 with left := cx, top := H / 2 }, true, true)
    else (o1, true, false)
  else
    if |cy - H / 2| < snapPx then
      ({ o with left := cx, top := H / 2 }, false, true)
    else (o, false, false)

/-- The history-relevant state of the `MugDesigner` instance: the current
scene (the serialisable full canvas state, abstracted to a natural number —
`JSON.stringify(canvas.toJSON())` / `loadFromJSON` form the scene library's
round-tripping serialisation, modelled as the identity on this abstraction),
`this.history` (the undo stack) and `this.redoHistory` (the redo stack), both
pushed and popped at the list's tail like JS `push`/`pop`. -/
structure Designer where
  scene : ℕ
  history : List ℕ
  redoHistory : List ℕ
deriving DecidableEq

/-- `saveHistory()` (designer.js:588-594): push the serialised current scene,
clear the redo stack, and if the stack now exceeds 50 entries `shift()` off
the oldest (front) entry. -/
def saveHistory (d : Designer) : Designer :=
  let history1 := d.history ++ [d.scene]
  { scene := d.scene
    history := if history1.length > 50 then history1.tail else history1
    redoHistory := [] }

/-- The `undoBtn` click handler (designer.js:1403-1416): if more than one
entry exists, pop the top onto the redo stack and load the new top (the
`if (lastState)` truthiness guard is modelled by `Option.getD`, keeping the
scene unchanged in the impossible empty case). -/
def undoBtn (d : Designer) : Designer :=
  if 1 < d.history.length then
    { scene := d.history.dropLast.getLast?.getD d.scene
      history := d.history.dropLast
      redoHistory := d.redoHistory ++ d.history.getLast?.toList }
  else d

/-- `redo()` (designer.js:574-586): if the redo stack is non-empty, pop its
top, push the serialised *current* scene onto the undo stack (with no 50-entry
cap and no redo-stack clearing), and load the popped state. -/
def redo (d : Designer) : Designer :=
  if 0 < d.redoHistory.length then
    { scene := d.redoHistory.getLast?.getD d.scene
      history := d.history ++ [d.scene]
      redoHistory := d.redoHistory.dropLast }
  else d

/-- The history effect of one scene mutation's event handlers
(`object:modified` / `object:added` / `object:removed`,
designer.js:1300-1326): the mutation `f` is applied to the scene first, then
the handler calls `saveHistory()`; the handlers' other effects (layer refresh,
texture-sync scheduling, analytics) do not touch the history stacks. -/
def mutationHandlers (f : ℕ → ℕ) (d : Designer) : Designer :=
  saveHistory { d with scene := f d.scene }

/-- A sequence of snapshots: for each state in turn, set the scene to it and
call `saveHistory()` (how repeated "push a snapshot" events unfold). -/
def snapshotRun (states : List ℕ) (d : Designer) : Designer :=
  states.foldl (fun acc s => saveHistory { acc with scene := s }) d

/-- A canvas object as the layer logic sees it: an identity (standing for JS
reference identity; the designer never aliases objects, so identities are
distinct) and the `excludeFromLayers` flag that marks the four helper objects
(safe rectangle, bleed rectangle, both guides). -/
structure CObj where
  id : ℕ
  excludeFromLayers : Bool
deriving DecidableEq

/-- The design-object filter shared by `updateLayersPanel` (designer.js:631)
and `reorderLayers` (designer.js:770-779): all canvas objects that are not the
safe/bleed rectangles or guides and are not tagged `excludeFromLayers` (the
four helper identities all carry that tag, so the flag alone decides). -/
def designObjects (canvas : List CObj) : List CObj :=
  canvas.filter (fun o => !o.excludeFromLayers)

/-- The layers panel's display list (designer.js:646): the design objects in
reverse canvas order, so panel index 0 is the topmost (last-painted) object.
The drag handlers store and compare these panel indices. -/
def layersPanel (canvas : List CObj) : List CObj :=
  (designObjects canvas).reverse

/-- `canvas.remove(obj)` on the object model: remove the first (only)
occurrence of the referenced object. -/
def removeObj (canvas : List CObj) (x : CObj) : List CObj :=
  canvas.eraseP (fun o => o.id == x.id)

/-- `canvas.insertAt(obj, index)`: splice `obj` into the object list at
`index` (appending when `index` is past the end, as `splice` does). -/
def insertAtCanvas (canvas : List CObj) (x : CObj) (i : ℕ) : List CObj :=
  canvas.take i ++ [x] ++ canvas.drop i

/-- `reorderLayers(fromIndex, toIndex)` (designer.js:769-798): look the
dragged object up at `fromIndex` in the *canvas-order* filtered design list,
remove it, and re-insert it — at `canvas.size() - 1` when `toIndex` is 0,
otherwise at the canvas index of the design object found at `toIndex`
(computed after the removal).  The drop handler (designer.js:753-763) passes
the *panel* (reversed) indices of the dragged and target entries straight into
these arguments.  Out-of-range indices, which the panel never produces, are
modelled as leaving the list unchanged. -/
def reorderLayers (canvas : List CObj) (fromIndex toIndex : ℕ) : List CObj :=
  let objects := designObjects canvas
  match objects.get? fromIndex with
  | none => canvas
  | some dragged =>
    let canvas1 := removeObj canvas dragged
    if toIndex = 0 then
      insertAtCanvas canvas1 dragged (canvas1.length - 1)
    else
      match objects.get? toIndex with
      | none => canvas1
      | some target =>
        insertAtCanvas canvas1 dragged
          (canvas1.findIdx (fun o => o.id == target.id))

/-- `DEBOUNCE_TIME` (designer.js:12), the wait passed to `debounce` when
`debouncedUpdate` is built (designer.js:1288). -/
def DEBOUNCE_TIME : ℚ := 300

/-- The observable timing semantics of `debounce(func, wait)`
(designer.js:802-808) under a sorted list of invocation times: each call
clears any pending timer and arms a new one `wait` ms out; the timer armed at
`t` fires at `t + wait` unless the next call arrives strictly before that
deadline.  Returns the list of execution times of `func`. -/
def debounceExecs (wait : ℚ) : List ℚ → List ℚ
  | [] => []
  | [t] => [t + wait]
  | t1 :: t2 :: rest =>
    (if t1 + wait ≤ t2 then [t1 + wait] else []) ++ debounceExecs wait (t2 :: rest)

/-! ### History-manager lemmas -/

/-- After `saveHistory` the top (last) undo-stack entry is the serialised
current scene. -/
lemma saveHistory_getLast? (d : Designer) :
    (saveHistory d).history.getLast? = some d.scene := by
  obtain ⟨sc, hist, r⟩ := d
  unfold saveHistory
  dsimp only
  split
  · rcases hist with _ | ⟨b, t⟩
    · simp_all
    · simp [List.tail_append_singleton_of_ne_nil]
  · simp

/-- `saveHistory` clears the redo stack. -/
lemma saveHistory_redo (d : Designer) : (saveHistory d).redoHistory = [] := rfl

/-- `saveHistory` leaves the scene untouched. -/
lemma saveHistory_scene (d : Designer) : (saveHistory d).scene = d.scene := rfl

/-- The undo stack is never empty after a `saveHistory`. -/
lemma saveHistory_history_ne_nil (d : Designer) :
    (saveHistory d).history ≠ [] := by
  intro h
  have := saveHistory_getLast? d
  rw [h] at this
  simp at this

/-- Starting from a non-empty undo stack, `saveHistory` leaves at least two
entries (so the undo button is enabled). -/
lemma saveHistory_two_le_length (d : Designer) (h : d.history ≠ []) :
    2 ≤ (saveHistory d).history.length := by
  obtain ⟨sc, hist, r⟩ := d
  simp only at h
  unfold saveHistory
  dsimp only
  split
  · next hlong =>
    rcases hist with _ | ⟨b, t⟩
    · simp_all
    · simp only [List.length_append, List.length_cons, List.length_singleton] at hlong
      simp only [List.cons_append, List.tail_cons, List.length_append, List.length_cons,
        List.length_singleton]
      omega
  · have : 1 ≤ hist.length := List.length_pos.mpr h
    simp only [List.length_append, List.length_singleton]
    omega

/-- Dropping the top entry pushed by `saveHistory` exposes the previous top:
the eviction of the oldest entry never disturbs the tail end of the stack. -/
lemma saveHistory_dropLast_getLast? (d : Designer) :
    (saveHistory d).history.dropLast.getLast? = d.history.getLast? := by
  obtain ⟨sc, hist, r⟩ := d
  unfold saveHistory
  dsimp only
  split
  · next hlong =>
    rcases hist with _ | ⟨b, t⟩
    · simp_all
    · simp only [List.length_append, List.length_cons, List.length_singleton] at hlong
      simp only [List.cons_append, List.tail_cons, List.dropLast_concat]
      rcases t with _ | ⟨c, u⟩
      · simp at hlong
      · simp [List.getLast?_cons_cons]
  · simp

/-- C4 — undo/redo round-trip: for any designer state and any scene mutation
`A`, the sequence `snapshot(); apply A; snapshot(); undo()` restores the scene
to the state captured by the first snapshot, and a subsequent `redo()`
restores the scene to the state after `A`. -/
theorem undo_redo_round_trip (d : Designer) (A : ℕ → ℕ) :
    let d1 := saveHistory d
    let d2 := { d1 with scene := A d1.scene }
    let d3 := saveHistory d2
    let d4 := undoBtn d3
    d4.scene = d1.scene ∧ (redo d4).scene = d2.scene := by
  intro d1 d2 d3 d4
  have h1 : d1.scene = d.scene := saveHistory_scene d
  have hne : d1.history ≠ [] := saveHistory_history_ne_nil d
  have hlen : 2 ≤ d3.history.length := saveHistory_two_le_length d2 hne
  have htop : d3.history.getLast? = some d2.scene := saveHistory_getLast? d2
  have hdrop : d3.history.dropLast.getLast? = d2.history.getLast? :=
    saveHistory_dropLast_getLast? d2
  have hprev : d2.history.getLast? = some d.scene := by
    show d1.history.getLast? = some d.scene
    simpa [h1] using saveHistory_getLast? d
  have hredo3 : d3.redoHistory = [] := saveHistory_redo d2
  have hd4 : d4 = { scene := d.scene
                    history := d3.history.dropLast
                    redoHistory := [d2.scene] } := by
    show undoBtn d3 = _
    unfold undoBtn
    rw [if_pos (by omega), hredo3, htop, hdrop, hprev]
    simp
  constructor
  · rw [hd4, h1]
  · rw [hd4]
    unfold redo
    simp

/-- C6 (counterexample) — the claim "after a mutation's event handlers have
run, the undo stack's top entry reflects the scene state immediately
preceding the most recent mutation" is false: starting from scene `0` with
undo stack `[0]`, applying the mutation `n ↦ n + 1` and running the handlers
leaves `1` (the post-mutation state) on top, not the preceding state `0`. -/
theorem history_top_after_mutation_cex :
    (mutationHandlers (fun n => n + 1) ⟨0, [0], []⟩).history.getLast? = some 1 ∧
    (mutationHandlers (fun n => n + 1) ⟨0, [0], []⟩).history.getLast? ≠ some 0 := by
  decide

/-- C6 (amended) — after a mutation's event handlers have run, the undo
stack's top entry reflects the scene state *resulting from* the most recent
mutation (the pre-mutation state sits beneath it, which is what the undo
button restores), and the redo stack has been cleared. -/
theorem history_top_after_mutation (A : ℕ → ℕ) (d : Designer) :
    (mutationHandlers A d).history.getLast? = some (A d.scene) ∧
    (mutationHandlers A d).redoHistory = [] :=
  ⟨saveHistory_getLast? { d with scene := A d.scene }, rfl⟩

/-- While the undo stack stays within the cap, `saveHistory` is a plain
append: a run of snapshots whose total stays at or below 50 entries simply
concatenates the snapshotted states. -/
lemma snapshotRun_no_evict (states : List ℕ) (d : Designer)
    (h : d.history.length + states.length ≤ 50) :
    (snapshotRun states d).history = d.history ++ states := by
  induction states generalizing d with
  | nil => simp [snapshotRun]
  | cons s rest ih =>
    have hstep : saveHistory { d with scene := s } =
        { scene := s, history := d.history ++ [s], redoHistory := [] } := by
      unfold saveHistory
      dsimp only
      rw [if_neg (by simp only [List.length_append, List.length_singleton]; simp at h; omega)]
    show (snapshotRun rest (saveHistory { d with scene := s })).history = _
    rw [hstep, ih ⟨s, d.history ++ [s], []⟩ (by simp at h ⊢; omega)]
    simp

/-- C5 — `saveHistory` serialises the current scene onto the top of the undo
stack and empties the redo stack; the stack is capped at 50 entries with FIFO
eviction: snapshotting 51 states in sequence onto an empty stack leaves
exactly the last 50 of them (the oldest is evicted). -/
theorem saveHistory_cap_fifo :
    (∀ d : Designer, (saveHistory d).redoHistory = [] ∧
      (saveHistory d).history.getLast? = some d.scene) ∧
    ∀ (states : List ℕ) (s0 : ℕ), states.length = 51 →
      (snapshotRun states ⟨s0, [], []⟩).history = states.tail ∧
      (snapshotRun states ⟨s0, [], []⟩).history.length = 50 := by
  refine ⟨fun d => ⟨saveHistory_redo d, saveHistory_getLast? d⟩, ?_⟩
  intro states s0 hlen
  rcases List.eq_nil_or_concat states with rfl | ⟨l, x, rfl⟩
  · simp at hlen
  · have hl : l.length = 50 := by simpa using hlen
    have hlne : l ≠ [] := by
      intro h
      rw [h] at hl
      simp at hl
    have hrun : (snapshotRun l ⟨s0, [], []⟩).history = l := by
      simpa using snapshotRun_no_evict l ⟨s0, [], []⟩ (by simp [hl])
    have hfold : snapshotRun (l.concat x) ⟨s0, [], []⟩ =
        saveHistory { snapshotRun l ⟨s0, [], []⟩ with scene := x } := by
      unfold snapshotRun
      rw [List.concat_eq_append, List.foldl_append]
      rfl
    have hfinal : (snapshotRun (l.concat x) ⟨s0, [], []⟩).history = l.tail ++ [x] := by
      rw [hfold]
      unfold saveHistory
      dsimp only
      rw [hrun, if_pos (by simp [hl]), List.tail_append_singleton_of_ne_nil hlne]
    constructor
    · rw [hfinal, List.concat_eq_append, List.tail_append_singleton_of_ne_nil hlne]
    · rw [hfinal]
      simp only [List.length_append, List.length_tail, List.length_singleton, hl]

/-- C5 witness: snapshotting the 51 states `0, 1, …, 50` onto an empty undo
stack leaves exactly the 50 states `1, …, 50`. -/
theorem saveHistory_cap_fifo_witness :
    (List.range 51).length = 51 ∧
    (snapshotRun (List.range 51) ⟨0, [], []⟩).history = (List.range 51).tail ∧
    (snapshotRun (List.range 51) ⟨0, [], []⟩).history.length = 50 :=
  ⟨by simp, (saveHistory_cap_fifo.2 (List.range 51) 0 (by simp)).1,
    (saveHistory_cap_fifo.2 (List.range 51) 0 (by simp)).2⟩

/-- C10 — `redo()` pushes the current scene onto the undo stack without
applying the 50-entry cap: from a full stack of 50 entries and a non-empty
redo stack, `redo()` leaves 51 undo entries, while `saveHistory` from the
same state keeps the stack at 50. -/
theorem redo_uncapped (d : Designer) (h50 : d.history.length = 50)
    (hr : d.redoHistory ≠ []) :
    (redo d).history.length = 51 ∧ (saveHistory d).history.length = 50 := by
  constructor
  · unfold redo
    rw [if_pos (List.length_pos.mpr hr)]
    simp [h50]
  · unfold saveHistory
    dsimp only
    rw [if_pos (by simp [h50])]
    simp [h50]

/-- C10 witness: a concrete designer state with a full 50-entry undo stack
and one redo entry, where `redo()` yields 51 undo entries and `saveHistory`
keeps 50. -/
theorem redo_uncapped_witness :
    (Designer.mk 0 (List.range 50) [7]).history.length = 50 ∧
    (Designer.mk 0 (List.range 50) [7]).redoHistory ≠ [] ∧
    (redo (Designer.mk 0 (List.range 50) [7])).history.length = 51 ∧
    (saveHistory (Designer.mk 0 (List.range 50) [7])).history.length = 50 := by
  refine ⟨by simp, by simp, ?_, ?_⟩
  · exact (redo_uncapped (Designer.mk 0 (List.range 50) [7]) (by simp) (by simp)).1
  · exact (redo_uncapped (Designer.mk 0 (List.range 50) [7]) (by simp) (by simp)).2

/-- C9 — trailing-edge debounce collapse: for any `N ≥ 1` calls to the
debounced texture sync at increasing times, each arriving strictly within
`DEBOUNCE_TIME` (300 ms) of the previous one, exactly one execution occurs,
`DEBOUNCE_TIME` after the last call — and none earlier, since the single
execution time is the last call's deadline. -/
theorem debounce_trailing_collapse (ts : List ℚ) (hne : ts ≠ [])
    (hchain : ts.Chain' (fun a b => a ≤ b ∧ b < a + DEBOUNCE_TIME)) :
    debounceExecs DEBOUNCE_TIME ts = [ts.getLast hne + DEBOUNCE_TIME] := by
  induction ts with
  | nil => exact absurd rfl hne
  | cons t rest ih =>
    rcases rest with _ | ⟨t2, rest2⟩
    · simp [debounceExecs]
    · obtain ⟨h12, hchain'⟩ := List.chain'_cons.mp hchain
      have hcancel : ¬ (t + DEBOUNCE_TIME ≤ t2) := by
        have := h12.2
        intro h
        linarith
      rw [show debounceExecs DEBOUNCE_TIME (t :: t2 :: rest2) =
            (if t + DEBOUNCE_TIME ≤ t2 then [t + DEBOUNCE_TIME] else []) ++
              debounceExecs DEBOUNCE_TIME (t2 :: rest2) from rfl,
        if_neg hcancel, List.nil_append,
        ih (List.cons_ne_nil t2 rest2) hchain',
        List.getLast_cons (List.cons_ne_nil t2 rest2)]

/-- C9 witness: three calls at 0 ms, 100 ms and 250 ms (each within 300 ms of
the previous) produce the single execution at 550 ms = 250 ms + 300 ms. -/
theorem debounce_trailing_collapse_witness :
    ([0, 100, 250] : List ℚ).Chain' (fun a b => a ≤ b ∧ b < a + DEBOUNCE_TIME) ∧
    debounceExecs DEBOUNCE_TIME [0, 100, 250] = [550] := by
  have hchain : ([0, 100, 250] : List ℚ).Chain'
      (fun a b => a ≤ b ∧ b < a + DEBOUNCE_TIME) := by
    norm_num [List.chain'_cons, DEBOUNCE_TIME]
  refine ⟨hchain, ?_⟩
  have h := debounce_trailing_collapse [0, 100, 250] (by simp) hchain
  have hlast : ([0, 100, 250] : List ℚ).getLast (by simp) = 250 := rfl
  rw [h, hlast]
  norm_num [DEBOUNCE_TIME]

/-- A concrete canvas for the layer-reorder scenario: the four helper objects
(ids 100–103, tagged `excludeFromLayers`) followed by three design objects
with ids 1, 2, 3 in paint order (1 earliest-painted, 3 topmost).  The layers
panel displays them reversed as `[3, 2, 1]`, so the bottom design layer (the
earliest-painted object, id 1) sits at panel index 2 and the top position is
panel index 0. -/
def reorderDemoCanvas : List CObj :=
  [⟨100, true⟩, ⟨101, true⟩, ⟨102, true⟩, ⟨103, true⟩,
   ⟨1, false⟩, ⟨2, false⟩, ⟨3, false⟩]

/-- C7 (code bug) — dragging the bottom design layer (panel index 2, the
earliest-painted object id 1) onto the top position (panel index 0) does
*not* make that object topmost: the drop handler feeds the reversed panel
indices into `reorderLayers`, which indexes the unreversed canvas-order design
list, so it grabs the *topmost* object (id 3) instead and re-inserts it at
`canvas.size() - 1`, one slot below the end.  The design paint order `[1, 2, 3]`
becomes `[1, 3, 2]` — the dragged object stays at the bottom and the other
two objects' relative order flips — instead of the claimed `[2, 3, 1]`. -/
theorem reorderLayers_bottom_to_top_bug :
    layersPanel reorderDemoCanvas = [⟨3, false⟩, ⟨2, false⟩, ⟨1, false⟩] ∧
    designObjects (reorderLayers reorderDemoCanvas 2 0) =
      [⟨1, false⟩, ⟨3, false⟩, ⟨2, false⟩] ∧
    designObjects (reorderLayers reorderDemoCanvas 2 0) ≠
      [⟨2, false⟩, ⟨3, false⟩, ⟨1, false⟩] := by
  decide

/-! ### Constraint-engine lemmas -/

lemma le_clampLow (lo x : ℚ) : lo ≤ clampLow lo x := by
  unfold clampLow; split_ifs with h <;> linarith

lemma clampHigh_le (hi x : ℚ) : clampHigh hi x ≤ hi := by
  unfold clampHigh; split_ifs with h <;> linarith

lemma le_clampHigh (lo hi x : ℚ) (h1 : lo ≤ hi) (h2 : lo ≤ x) :
    lo ≤ clampHigh hi x := by
  unfold clampHigh; split_ifs with h <;> linarith

lemma clampLow_eq_max (lo x : ℚ) : clampLow lo x = max lo x := by
  unfold clampLow
  rcases lt_or_le x lo with h | h
  · rw [if_pos h, max_eq_left h.le]
  · rw [if_neg (not_lt.mpr h), max_eq_right h]

lemma clampHigh_eq_min (hi x : ℚ) : clampHigh hi x = min hi x := by
  unfold clampHigh
  rcases lt_or_le hi x with h | h
  · rw [if_pos h, min_eq_left h.le]
  · rw [if_neg (not_lt.mpr h), min_eq_right h]

/-- The safe-zone scale fit never increases a scale factor (intrinsic
dimensions are positive for real Fabric objects). -/
lemma fittedScale_le (maxDim dim scale : ℚ) (hd : 0 < dim) :
    fittedScale maxDim dim scale ≤ scale := by
  unfold fittedScale
  split_ifs with h
  · rw [div_le_iff₀ hd]
    nlinarith
  · exact le_rfl

/-- The fitted scaled dimension never exceeds the safe-zone dimension. -/
lemma fittedDim_le (maxDim dim scale : ℚ) : fittedDim maxDim dim scale ≤ maxDim := by
  unfold fittedDim
  split_ifs with h <;> linarith

/-- The fitted scaled dimension stays nonnegative. -/
lemma fittedDim_nonneg (maxDim dim scale : ℚ) (hmd : 0 ≤ maxDim)
    (hds : 0 ≤ dim * scale) : 0 ≤ fittedDim maxDim dim scale := by
  unfold fittedDim
  split_ifs with h <;> linarith

/-- On a text object, `checkBounds` runs exactly the scale-fit-and-clamp. -/
lemma checkBounds_fst_text (safe bleed : Rect) (o : Obj) (htyp : o.type = "i-text") :
    (checkBounds safe bleed o).1 = clampTextToSafe safe o := by
  simp [checkBounds, htyp]

/-- C1 — for every text object (`type = "i-text"`), after `checkBounds` the
object's bounding-box center lies within the safe-zone rectangle, inclusive
of its edges, and both scale factors are at most their pre-call values.  The
hypotheses state the standing Fabric invariants: intrinsic dimensions are
positive, scale factors nonnegative, and the safe rectangle has nonnegative
extent. -/
theorem checkBounds_text_center_in_safe (safe bleed : Rect) (o : Obj)
    (htyp : o.type = "i-text") (hw : 0 < o.width) (hh : 0 < o.height)
    (hsx : 0 ≤ o.scaleX) (hsy : 0 ≤ o.scaleY)
    (hsw : 0 ≤ safe.width) (hsh : 0 ≤ safe.height) :
    safe.left ≤ (checkBounds safe bleed o).1.left ∧
    (checkBounds safe bleed o).1.left ≤ safe.left + safe.width ∧
    safe.top ≤ (checkBounds safe bleed o).1.top ∧
    (checkBounds safe bleed o).1.top ≤ safe.top + safe.height ∧
    (checkBounds safe bleed o).1.scaleX ≤ o.scaleX ∧
    (checkBounds safe bleed o).1.scaleY ≤ o.scaleY := by
  rw [checkBounds_fst_text safe bleed o htyp]
  have hW0 : 0 ≤ fittedDim safe.width o.width o.scaleX :=
    fittedDim_nonneg _ _ _ hsw (mul_nonneg hw.le hsx)
  have hW1 : fittedDim safe.width o.width o.scaleX ≤ safe.width := fittedDim_le _ _ _
  have hH0 : 0 ≤ fittedDim safe.height o.height o.scaleY :=
    fittedDim_nonneg _ _ _ hsh (mul_nonneg hh.le hsy)
  have hH1 : fittedDim safe.height o.height o.scaleY ≤ safe.height := fittedDim_le _ _ _
  have hxlo : safe.left ≤ safe.left + fittedDim safe.width o.width o.scaleX / 2 := by
    linarith
  have hxord : safe.left + fittedDim safe.width o.width o.scaleX / 2 ≤
      safe.left + safe.width - fittedDim safe.width o.width o.scaleX / 2 := by
    linarith
  have hylo : safe.top ≤ safe.top + fittedDim safe.height o.height o.scaleY / 2 := by
    linarith
  have hyord : safe.top + fittedDim safe.height o.height o.scaleY / 2 ≤
      safe.top + safe.height - fittedDim safe.height o.height o.scaleY / 2 := by
    linarith
  refine ⟨?_, ?_, ?_, ?_, ?_, ?_⟩
  · calc safe.left ≤ safe.left + fittedDim safe.width o.width o.scaleX / 2 := hxlo
      _ ≤ (clampTextToSafe safe o).left :=
        le_clampHigh _ _ _ hxord (le_clampLow _ _)
  · calc (clampTextToSafe safe o).left
        ≤ safe.left + safe.width - fittedDim safe.width o.width o.scaleX / 2 :=
          clampHigh_le _ _
      _ ≤ safe.left + safe.width := by linarith
  · calc safe.top ≤ safe.top + fittedDim safe.height o.height o.scaleY / 2 := hylo
      _ ≤ (clampTextToSafe safe o).top :=
        le_clampHigh _ _ _ hyord (le_clampLow _ _)
  · calc (clampTextToSafe safe o).top
        ≤ safe.top + safe.height - fittedDim safe.height o.height o.scaleY / 2 :=
          clampHigh_le _ _
      _ ≤ safe.top + safe.height := by linarith
  · exact fittedScale_le _ _ _ hw
  · exact fittedScale_le _ _ _ hh

/-- C1 witness: a concrete oversized text object on the designer's 614 × 230
canvas with its configured safe zone, whose post-`checkBounds` center lies in
the safe zone with reduced scale. -/
theorem checkBounds_text_center_in_safe_witness :
    let safe : Rect := ⟨60, 3, 494, 222⟩
    let bleed : Rect := ⟨-10, -10, 634, 250⟩
    let o : Obj := ⟨307, 115, 1000, 10, 1, 1, 0, "i-text"⟩
    o.type = "i-text" ∧ (0 : ℚ) < o.width ∧
    (safe.left ≤ (checkBounds safe bleed o).1.left ∧
     (checkBounds safe bleed o).1.left ≤ safe.left + safe.width ∧
     safe.top ≤ (checkBounds safe bleed o).1.top ∧
     (checkBounds safe bleed o).1.top ≤ safe.top + safe.height ∧
     (checkBounds safe bleed o).1.scaleX ≤ o.scaleX ∧
     (checkBounds safe bleed o).1.scaleY ≤ o.scaleY) :=
  ⟨rfl, by norm_num,
    checkBounds_text_center_in_safe _ _ _ rfl (by norm_num) (by norm_num)
      (by norm_num) (by norm_num) (by norm_num) (by norm_num)⟩

/-- C2 (counterexample) — the scale fit does *not* preserve the object's
aspect ratio: a wide, short text (1000 × 10 at scale 1 × 1) on the designer's
safe zone gets `scaleX` cut to 247/500 while `scaleY` stays 1, so the ratio
`scaleX : scaleY` changes from 1 : 1 to 247/500 : 1. -/
theorem checkBounds_aspect_ratio_cex :
    let safe : Rect := ⟨60, 3, 494, 222⟩
    let bleed : Rect := ⟨-10, -10, 634, 250⟩
    let o : Obj := ⟨307, 115, 1000, 10, 1, 1, 0, "i-text"⟩
    (checkBounds safe bleed o).1.scaleX = 247 / 500 ∧
    (checkBounds safe bleed o).1.scaleY = 1 ∧
    ¬ (checkBounds safe bleed o).1.scaleX * o.scaleY =
        (checkBounds safe bleed o).1.scaleY * o.scaleX := by
  refine ⟨?_, ?_, ?_⟩ <;>
    norm_num [checkBounds, clampTextToSafe, fittedScale, fittedDim]

/-- C2 (amended) — in `checkBounds`, for a text object each scale factor is
reduced *independently per axis* to fit the safe zone (`scaleX` becomes
`safe.width / width` exactly when the scaled width overflows, and likewise for
`scaleY`; the aspect ratio is not necessarily preserved), and this scale fit
is always resolved before the position clamp: the center is clamped into
`[safe.left + halfW, safe.left + safe.width − halfW]` (and the equivalent Y
range) where `halfW` is half the *rescaled* width `fittedDim`. -/
theorem checkBounds_fit_before_clamp (safe bleed : Rect) (o : Obj)
    (htyp : o.type = "i-text") :
    (checkBounds safe bleed o).1.scaleX = fittedScale safe.width o.width o.scaleX ∧
    (checkBounds safe bleed o).1.scaleY = fittedScale safe.height o.height o.scaleY ∧
    (checkBounds safe bleed o).1.left =
      min (safe.left + safe.width - fittedDim safe.width o.width o.scaleX / 2)
        (max (safe.left + fittedDim safe.width o.width o.scaleX / 2) o.left) ∧
    (checkBounds safe bleed o).1.top =
      min (safe.top + safe.height - fittedDim safe.height o.height o.scaleY / 2)
        (max (safe.top + fittedDim safe.height o.height o.scaleY / 2) o.top) := by
  rw [checkBounds_fst_text safe bleed o htyp]
  refine ⟨rfl, rfl, ?_, ?_⟩
  · show clampHigh _ (clampLow _ _) = _
    rw [clampHigh_eq_min, clampLow_eq_max]
  · show clampHigh _ (clampLow _ _) = _
    rw [clampHigh_eq_min, clampLow_eq_max]

/-- C2 (amended) witness: the wide text of the counterexample, evaluated
through the amended characterisation. -/
theorem checkBounds_fit_before_clamp_witness :
    let safe : Rect := ⟨60, 3, 494, 222⟩
    let bleed : Rect := ⟨-10, -10, 634, 250⟩
    let o : Obj := ⟨307, 115, 1000, 10, 1, 1, 0, "i-text"⟩
    o.type = "i-text" ∧
    ((checkBounds safe bleed o).1.scaleX = fittedScale safe.width o.width o.scaleX ∧
     (checkBounds safe bleed o).1.scaleY = fittedScale safe.height o.height o.scaleY ∧
     (checkBounds safe bleed o).1.left =
       min (safe.left + safe.width - fittedDim safe.width o.width o.scaleX / 2)
         (max (safe.left + fittedDim safe.width o.width o.scaleX / 2) o.left) ∧
     (checkBounds safe bleed o).1.top =
       min (safe.top + safe.height - fittedDim safe.height o.height o.scaleY / 2)
         (max (safe.top + fittedDim safe.height o.height o.scaleY / 2) o.top)) :=
  ⟨rfl, checkBounds_fit_before_clamp _ _ _ rfl⟩

/-- C3 (code bug) — `snapToCenter` does not snap independently per axis: on
the 614 × 230 canvas, an object centered at (312, 120) is within 10 px of
*both* centerlines (307, 115), yet after `snapToCenter` its center is
(312, 115), not (307, 115): the Y-axis snap rewrites the center using the
stale `center.x` captured before the X-axis snap, undoing the X snap.  Both
guides are nevertheless shown. -/
theorem snapToCenter_stale_center_bug :
    let o : Obj := ⟨312, 120, 100, 20, 1, 1, 0, "i-text"⟩
    |o.left - 614 / 2| < 10 ∧ |o.top - 230 / 2| < 10 ∧
    (snapToCenter 614 230 10 o).1.left = 312 ∧
    (312 : ℚ) ≠ 614 / 2 ∧
    (snapToCenter 614 230 10 o).1.top = 230 / 2 ∧
    (snapToCenter 614 230 10 o).2 = (true, true) := by
  refine ⟨by norm_num [abs], by norm_num [abs], ?_, by norm_num, ?_, ?_⟩ <;>
    norm_num [snapToCenter, abs]

/-- C8 — for every non-text object, `checkBounds` leaves the object (its
position, scale and rotation) entirely unchanged, emits the warning exactly
when some edge of the bounding box exceeds the bleed zone, and the emitted
warning is the transient modal that auto-dismisses after 3000 ms.  The
embedded function is total, so no input can make it throw. -/
theorem checkBounds_nonText (safe bleed : Rect) (o : Obj)
    (htyp : o.type ≠ "i-text") :
    (checkBounds safe bleed o).1 = o ∧
    ((checkBounds safe bleed o).2.isSome ↔ exceedsBleed bleed o = true) ∧
    ∀ m ∈ (checkBounds safe bleed o).2, m.dismissAfterMs = 3000 := by
  refine ⟨by simp [checkBounds, htyp], ?_, ?_⟩
  · unfold checkBounds
    dsimp only
    split_ifs with h <;> simp [h]
  · unfold checkBounds
    dsimp only
    split_ifs with h
    · intro m hm
      simp only [Option.mem_def, Option.some_inj] at hm
      rw [← hm]
      rfl
    · intro m hm
      simp at hm

/-- C8 witness: a concrete image object protruding past the bleed zone is
returned untouched together with the 3000 ms auto-dismissing warning. -/
theorem checkBounds_nonText_witness :
    let safe : Rect := ⟨60, 3, 494, 222⟩
    let bleed : Rect := ⟨-10, -10, 634, 250⟩
    let o : Obj := ⟨700, 115, 100, 20, 1, 1, 0, "image"⟩
    o.type ≠ "i-text" ∧
    ((checkBounds safe bleed o).1 = o ∧
     ((checkBounds safe bleed o).2.isSome ↔ exceedsBleed bleed o = true) ∧
     ∀ m ∈ (checkBounds safe bleed o).2, m.dismissAfterMs = 3000) ∧
    exceedsBleed bleed o = true :=
  ⟨by decide, checkBounds_nonText _ _ _ (by decide),
    by norm_num [exceedsBleed, boundingRect]⟩

end MugDesigner
